import Mathlib

/-!
Verification of the Industrial-Copilot energy-dispatch core
(`backend/core/config.py` and `backend/core/optimizer.py`).

The Python floats of the source are modelled as rationals; the LP solver
(PuLP/CBC) is external to the repository, so `optimize` is embedded as a
function of the solver's reported status and variable values, and solver
correctness (feasibility / optimality of the returned point) appears as an
explicit hypothesis where a claim needs it.  Python's `round(x, 2)` is
banker's rounding; it is modelled with Mathlib's `round` (half-up), which
agrees with it except on exact midpoints and satisfies the same bounds
(monotone, error at most 1/200) used in the proofs.
-/

namespace IndustrialCopilot

/-! ### Constants from backend/core/config.py -/

def GRID_PEAK_COST : ℚ := 1271/1000
def GRID_STANDARD_COST : ℚ := 897/1000
def GRID_OFF_PEAK_COST : ℚ := 552/1000
def BOILER_COST : ℚ := 284
def SULFURIC_HEAT_COST : ℚ := 20
def GTA_FUEL_COST : ℚ := 65/100
def PEAK_HOURS_START : ℤ := 17
def PEAK_HOURS_END : ℤ := 22
def STANDARD_HOURS_START : ℤ := 7
def STANDARD_HOURS_END : ℤ := 17

def MAX_ADMISSION : ℚ := 190
def MAX_SOUTIRAGE : ℚ := 100
def MIN_ADMISSION : ℚ := 0
def MIN_SOUTIRAGE : ℚ := 0

def MAX_TOTAL_STEAM_PRODUCTION : ℚ := 600
def MAX_TOTAL_POWER_PRODUCTION : ℚ := 111
def MAX_GRID_IMPORT : ℚ := 100
def MAX_BOILER_CAPACITY : ℚ := 200
def STEAM_SAFETY_MARGIN : ℚ := 105/100
def POWER_SAFETY_MARGIN : ℚ := 103/100

/-- Per-GTA regression coefficients (`coef_a`, `coef_s`, `intercept`). -/
structure GtaCoef where
  coef_a : ℚ
  coef_s : ℚ
  intercept : ℚ
deriving DecidableEq

/-- `PhysicsCoefficients.get_gta_coefficients`: dictionary lookup with
`.get(gta_number, coefficients[1])`, i.e. any index other than 1, 2, 3
silently falls back to GTA 1's coefficients. -/
def get_gta_coefficients (gta_number : ℤ) : GtaCoef :=
  if gta_number = 1 then ⟨2761/10000, -1805/10000, -272/100⟩
  else if gta_number = 2 then ⟨2560/10000, -1782/10000, -2/100⟩
  else if gta_number = 3 then ⟨2573/10000, -1723/10000, 6/100⟩
  else ⟨2761/10000, -1805/10000, -272/100⟩

/-- `get_grid_cost` for an explicitly supplied hour (the `hour is None`
branch substitutes the current wall-clock hour before this dispatch;
`optimize` models that substitution with its `nowHour` argument). -/
def get_grid_cost (hour : ℤ) : ℚ :=
  if PEAK_HOURS_START ≤ hour ∧ hour < PEAK_HOURS_END then GRID_PEAK_COST
  else if STANDARD_HOURS_START ≤ hour ∧ hour < STANDARD_HOURS_END then GRID_STANDARD_COST
  else GRID_OFF_PEAK_COST

/-! ### EnergyOptimizer.predict_gta_power -/

/-- `EnergyOptimizer.predict_gta_power`: linear regression output, floored
at zero. -/
def predict_gta_power (admission soutirage : ℚ) (gta_number : ℤ) : ℚ :=
  let coef := get_gta_coefficients gta_number
  max 0 (coef.coef_a * admission + coef.coef_s * soutirage + coef.intercept)

/-! ### Rounding: Python's round(x, 2) -/

/-- `round(x, 2)` on the extracted solver values. -/
def round2 (q : ℚ) : ℚ := (round (100 * q) : ℤ) / 100

theorem round2_le (q : ℚ) : round2 q ≤ q + 1/200 := by
  have h := abs_sub_round (100 * q)
  rw [abs_le] at h
  unfold round2
  have h2 : (round (100 * q) : ℚ) ≤ 100 * q + 1/2 := by linarith [h.1]
  linarith

theorem round2_ge (q : ℚ) : q - 1/200 ≤ round2 q := by
  have h := abs_sub_round (100 * q)
  rw [abs_le] at h
  unfold round2
  have h2 : 100 * q - 1/2 ≤ (round (100 * q) : ℚ) := by linarith [h.2]
  linarith

theorem round2_mono {a b : ℚ} (h : a ≤ b) : round2 a ≤ round2 b := by
  unfold round2
  have : round (100 * a) ≤ round (100 * b) := by
    rw [round_eq, round_eq]
    exact Int.floor_le_floor (by linarith)
  have h2 : (round (100 * a) : ℚ) ≤ (round (100 * b) : ℚ) := by exact_mod_cast this
  linarith

/-! ### The linear program built by EnergyOptimizer.optimize

One `Assignment` collects the nine decision variables of the LP
(`Admission_GTA{i}`, `Soutirage_GTA{i}`, `Boiler_Steam`, `Grid_Import`,
`Sulfur_Steam`). -/

structure Assignment where
  A1 : ℚ
  A2 : ℚ
  A3 : ℚ
  S1 : ℚ
  S2 : ℚ
  S3 : ℚ
  boiler : ℚ
  grid : ℚ
  sulfur : ℚ
deriving DecidableEq

/-- A business-constraint value: status flags are strings, limits numeric. -/
inductive CVal where
  | str (s : String)
  | num (q : ℚ)
deriving DecidableEq

/-- The linear (un-floored) GTA power expression used inside the LP:
`coef_a * A + coef_s * S + intercept`. -/
def gta_power_lin (a s : ℚ) (gta_number : ℤ) : ℚ :=
  let coef := get_gta_coefficients gta_number
  coef.coef_a * a + coef.coef_s * s + coef.intercept

/-- Sum of the three LP power expressions (`total_gta_power`). -/
def total_gta_power (x : Assignment) : ℚ :=
  gta_power_lin x.A1 x.S1 1 + gta_power_lin x.A2 x.S2 2 + gta_power_lin x.A3 x.S3 3

/-- `total_steam` = `S[1] + S[2] + S[3] + F_boiler + F_sulfur`. -/
def lp_total_steam (x : Assignment) : ℚ :=
  x.S1 + x.S2 + x.S3 + x.boiler + x.sulfur

/-- Variable bounds of the LP, relaxed by a solver tolerance `tol`
(`tol = 0` is the exact LP). -/
def VarBoundsTol (tol max_sulfur : ℚ) (x : Assignment) : Prop :=
  (MIN_ADMISSION - tol ≤ x.A1 ∧ x.A1 ≤ MAX_ADMISSION + tol) ∧
  (MIN_ADMISSION - tol ≤ x.A2 ∧ x.A2 ≤ MAX_ADMISSION + tol) ∧
  (MIN_ADMISSION - tol ≤ x.A3 ∧ x.A3 ≤ MAX_ADMISSION + tol) ∧
  (MIN_SOUTIRAGE - tol ≤ x.S1 ∧ x.S1 ≤ MAX_SOUTIRAGE + tol) ∧
  (MIN_SOUTIRAGE - tol ≤ x.S2 ∧ x.S2 ≤ MAX_SOUTIRAGE + tol) ∧
  (MIN_SOUTIRAGE - tol ≤ x.S3 ∧ x.S3 ≤ MAX_SOUTIRAGE + tol) ∧
  (0 - tol ≤ x.boiler ∧ x.boiler ≤ MAX_BOILER_CAPACITY + tol) ∧
  (0 - tol ≤ x.grid ∧ x.grid ≤ MAX_GRID_IMPORT + tol) ∧
  (0 - tol ≤ x.sulfur ∧ x.sulfur ≤ max_sulfur + tol)

/-- One business-constraint entry, translated exactly as the key/value
dispatch in `optimize` does: recognized keys add LP constraints, everything
else (including `min_gta_count`) is a no-op.  A numeric value on a status
key or a string value on a numeric key adds nothing (the source would
raise on those malformed shapes before solving; they are outside every
claim's scope). -/
def ConsTol (tol : ℚ) (x : Assignment) (c : String × CVal) : Prop :=
  match c.2 with
  | .str s =>
      if c.1 = "gta1_status" then
        (if s.toUpper = "OFF" then (-tol ≤ x.A1 ∧ x.A1 ≤ tol) ∧ (-tol ≤ x.S1 ∧ x.S1 ≤ tol)
         else if s.toUpper = "MAINTENANCE" then x.A1 ≤ MAX_ADMISSION * (1/2) + tol
         else True)
      else if c.1 = "gta2_status" then
        (if s.toUpper = "OFF" then (-tol ≤ x.A2 ∧ x.A2 ≤ tol) ∧ (-tol ≤ x.S2 ∧ x.S2 ≤ tol)
         else if s.toUpper = "MAINTENANCE" then x.A2 ≤ MAX_ADMISSION * (1/2) + tol
         else True)
      else if c.1 = "gta3_status" then
        (if s.toUpper = "OFF" then (-tol ≤ x.A3 ∧ x.A3 ≤ tol) ∧ (-tol ≤ x.S3 ∧ x.S3 ≤ tol)
         else if s.toUpper = "MAINTENANCE" then x.A3 ≤ MAX_ADMISSION * (1/2) + tol
         else True)
      else True
  | .num v =>
      if c.1 = "cap_steam" then lp_total_steam x ≥ v - tol
      else if c.1 = "max_grid_import" then x.grid ≤ v + tol
      else if c.1 = "sulfur_max" then x.sulfur ≤ v + tol
      else True

/-- Full feasibility of the LP that `optimize` hands to the solver, with
every constraint relaxed by `tol`. -/
def LpFeasTol (tol elec_demand steam_demand max_sulfur : ℚ)
    (constraints : List (String × CVal)) (x : Assignment) : Prop :=
  VarBoundsTol tol max_sulfur x ∧
  (x.S1 ≤ x.A1 + tol ∧ x.S2 ≤ x.A2 + tol ∧ x.S3 ≤ x.A3 + tol) ∧
  (total_gta_power x + x.grid ≥ elec_demand * POWER_SAFETY_MARGIN - tol) ∧
  (lp_total_steam x ≥ steam_demand * STEAM_SAFETY_MARGIN - tol) ∧
  (∀ c ∈ constraints, ConsTol tol x c)

/-- The exact LP feasible set. -/
def LpFeas (elec_demand steam_demand max_sulfur : ℚ)
    (constraints : List (String × CVal)) (x : Assignment) : Prop :=
  LpFeasTol 0 elec_demand steam_demand max_sulfur constraints x

instance (tol max_sulfur : ℚ) (x : Assignment) :
    Decidable (VarBoundsTol tol max_sulfur x) := by
  unfold VarBoundsTol; infer_instance

instance (tol : ℚ) (x : Assignment) (c : String × CVal) :
    Decidable (ConsTol tol x c) := by
  rcases c with ⟨k, s | q⟩ <;> simp only [ConsTol] <;> infer_instance

instance (tol elec_demand steam_demand max_sulfur : ℚ)
    (constraints : List (String × CVal)) (x : Assignment) :
    Decidable (LpFeasTol tol elec_demand steam_demand max_sulfur constraints x) := by
  unfold LpFeasTol; infer_instance

instance (elec_demand steam_demand max_sulfur : ℚ)
    (constraints : List (String × CVal)) (x : Assignment) :
    Decidable (LpFeas elec_demand steam_demand max_sulfur constraints x) := by
  unfold LpFeas; infer_instance

/-- The LP objective (`Total_Operating_Cost`):
`E_grid*grid_cost*1000 + F_boiler*BOILER_COST + F_sulfur*SULFURIC_HEAT_COST
 + Σ A[i]*GTA_FUEL_COST*100`. -/
def lpCost (grid_cost : ℚ) (x : Assignment) : ℚ :=
  x.grid * grid_cost * 1000 + x.boiler * BOILER_COST + x.sulfur * SULFURIC_HEAT_COST +
    (x.A1 * GTA_FUEL_COST * 100 + x.A2 * GTA_FUEL_COST * 100 + x.A3 * GTA_FUEL_COST * 100)

/-! ### Solver interface -/

/-- The five `pulp.LpStatus` values. -/
inductive SolverStatus where
  | Optimal
  | NotSolved
  | Infeasible
  | Unbounded
  | Undefined
deriving DecidableEq

/-- What the external CBC solve leaves behind: a reported status and the
variable values that `pulp.value` would read back. -/
structure SolverOutcome where
  status : SolverStatus
  x : Assignment
deriving DecidableEq

/-- Soundness of a solver outcome for a given LP: an `Optimal` report comes
with a feasible, cost-minimal point, and any other report certifies that
the LP has no feasible point at all (an exact solver). -/
def SolverSound (elec_demand steam_demand max_sulfur grid_cost : ℚ)
    (constraints : List (String × CVal)) (o : SolverOutcome) : Prop :=
  match o.status with
  | .Optimal =>
      LpFeas elec_demand steam_demand max_sulfur constraints o.x ∧
      ∀ y, LpFeas elec_demand steam_demand max_sulfur constraints y →
        lpCost grid_cost o.x ≤ lpCost grid_cost y
  | _ => ∀ y, ¬ LpFeas elec_demand steam_demand max_sulfur constraints y

/-! ### EnergyOptimizer._generate_recommendations

Each recommendation dict is modelled by its `icon`, `title` and `priority`
fields.  The `instruction`, `impact` and `safety_check` strings only
interpolate the numeric inputs into fixed English templates via float
formatting and are elided; no claim mentions them.  The rule groups are one
definition each, concatenated in the source's emission order. -/

inductive Priority where
  | high
  | medium
  | low
deriving DecidableEq, BEq

structure Recommendation where
  icon : String
  title : String
  priority : Priority
deriving DecidableEq

/-- One entry of the `gtas` result list
(`{gta_number, admission, soutirage, power}`). -/
structure GTARecord where
  gta_number : ℤ
  admission : ℚ
  soutirage : ℚ
  power : ℚ
deriving DecidableEq

/-- Python's `(hour or 14)`: `None` and the falsy hour `0` both yield 14. -/
def hourOr14 (hour : Option ℤ) : ℤ :=
  match hour with
  | none => 14
  | some h => if h = 0 then 14 else h

/-- PRIORITY 1: financial impact header. -/
def branch_savings (savings : ℚ) : List Recommendation :=
  if savings > 100 then
    [⟨"💰", "Optimization Savings Identified", .high⟩]
  else []

/-- BRANCH 1, one GTA: near-capacity push versus normal setpoint. -/
def branch_gta_one (g : GTARecord) : List Recommendation :=
  if g.power > 1/10 ∧ g.admission > 175 then
    [⟨"⚙️", "Push GTA " ++ toString g.gta_number ++ " to Capacity", .high⟩]
  else if g.power > 1/10 ∧ g.admission > 1 then
    [⟨"⚙️", "Adjust GTA " ++ toString g.gta_number ++ " Setpoint", .medium⟩]
  else []

/-- BRANCH 1: the per-GTA loop. -/
def branch_gta (gtas : List GTARecord) : List Recommendation :=
  gtas.flatMap branch_gta_one

/-- BRANCH 2: boiler shutdown / expensive-steam warning. -/
def branch_boiler (baseline_boiler boiler_output : ℚ) : List Recommendation :=
  if baseline_boiler > 10 ∧ boiler_output < 1 then
    [⟨"🛑", "Shutdown Auxiliary Boiler", .high⟩]
  else if boiler_output > 10 then
    [⟨"⚠️", "Expensive Steam Source Active", .medium⟩]
  else []

/-- BRANCH 3: peak-tariff alert / peak-shaving confirmation. -/
def branch_peak (is_peak : Bool) (grid_import : ℚ) : List Recommendation :=
  if is_peak ∧ grid_import > 10 then
    [⟨"⚡", "Peak Tariff Alert (1.271 DH/kWh)", .high⟩]
  else if is_peak ∧ grid_import < 10 then
    [⟨"✅", "Peak Shaving Successful", .low⟩]
  else []

/-- BRANCH 4: grid-import trend. -/
def branch_grid (baseline_grid grid_import : ℚ) : List Recommendation :=
  if baseline_grid - grid_import > 5 then
    [⟨"✅", "Grid Import Optimized", .medium⟩]
  else if grid_import > 90 then
    [⟨"🔴", "Grid Capacity Warning", .high⟩]
  else []

/-- BRANCH 5: the MP steam-header pressure estimate
`7 + steam_ratio * 2` against the 8.5 bar minimum.  Note the strict
`<` / `elif >` pair: nothing is emitted when the estimate is exactly 8.5. -/
def branch_pressure (gtas : List GTARecord) (sulfur_steam_used boiler_output steam_demand : ℚ) :
    List Recommendation :=
  let total_steam := sulfur_steam_used + (gtas.map GTARecord.soutirage).sum + boiler_output
  let steam_ratio := if steam_demand > 0 then total_steam / steam_demand else 1
  let estimated_pressure := 7 + steam_ratio * 2
  if estimated_pressure < 17/2 then
    [⟨"⚠️", "MP Pressure Risk", .high⟩]
  else if estimated_pressure > 17/2 then
    [⟨"✅", "Process Reliability: Stable", .low⟩]
  else []

/-- BRANCH 6: free-steam utilization praise. -/
def branch_sulfur_util (sulfur_steam_used : ℚ) : List Recommendation :=
  if sulfur_steam_used > 70 then
    [⟨"♻️", "Free Steam Maximized", .low⟩]
  else []

/-- BRANCH 7a: no active GTAs. -/
def branch_active (gtas : List GTARecord) : List Recommendation :=
  if (gtas.filter (fun g => g.power > 1)).length = 0 then
    [⟨"🔴", "No GTAs Running", .high⟩]
  else []

/-- BRANCH 7b: electrical demand above plant capacity. -/
def branch_power_capacity (elec_demand : ℚ) : List Recommendation :=
  if elec_demand > MAX_TOTAL_POWER_PRODUCTION then
    [⟨"🔴", "Demand Exceeds Plant Capacity", .high⟩]
  else []

/-- BRANCH 7c: steam demand above plant capacity. -/
def branch_steam_capacity (steam_demand : ℚ) : List Recommendation :=
  if steam_demand > MAX_TOTAL_STEAM_PRODUCTION then
    [⟨"🔴", "Steam Demand Infeasible", .high⟩]
  else []

/-- BRANCH 8: off-peak opportunity note. -/
def branch_offpeak (hour : Option ℤ) : List Recommendation :=
  if hourOr14 hour ≥ 22 ∨ hourOr14 hour < 7 then
    [⟨"🟢", "Off-Peak Advantage Active", .low⟩]
  else []

/-- `EnergyOptimizer._generate_recommendations`: all rule groups evaluated
independently, results appended in emission order. -/
def _generate_recommendations (gtas : List GTARecord)
    (grid_import boiler_output sulfur_steam_used baseline_grid baseline_boiler
      grid_cost savings elec_demand steam_demand : ℚ) (hour : Option ℤ) :
    List Recommendation :=
  let eff := hourOr14 hour
  let is_peak : Bool := decide (17 ≤ eff ∧ eff < 22)
  let _ := grid_cost   -- only interpolated into elided instruction strings
  branch_savings savings ++
  branch_gta gtas ++
  branch_boiler baseline_boiler boiler_output ++
  branch_peak is_peak grid_import ++
  branch_grid baseline_grid grid_import ++
  branch_pressure gtas sulfur_steam_used boiler_output steam_demand ++
  branch_sulfur_util sulfur_steam_used ++
  branch_active gtas ++
  branch_power_capacity elec_demand ++
  branch_steam_capacity steam_demand ++
  branch_offpeak hour

/-- Membership of a recommendation title in an emitted list. -/
def hasRec (recs : List Recommendation) (t : String) : Bool :=
  recs.any fun r => r.title == t

/-- Membership of a title at a given priority. -/
def hasRecP (recs : List Recommendation) (t : String) (p : Priority) : Bool :=
  recs.any fun r => r.title == t && r.priority == p

theorem hasRec_append (l1 l2 : List Recommendation) (t : String) :
    hasRec (l1 ++ l2) t = (hasRec l1 t || hasRec l2 t) := by
  simp [hasRec]

/-! ### EnergyOptimizer.optimize: result extraction -/

/-- The `cost_breakdown` dict of a successful solve. -/
structure CostBreakdown where
  grid : ℚ
  boiler : ℚ
  sulfur : ℚ
  gta_fuel : ℚ
deriving DecidableEq

/-- The dictionary `optimize` returns.  `total_cost` is `WithTop ℚ` so the
failure branch's `float('inf')` is `⊤`.  The failure dict carries no
`cost_breakdown` entries and no `recommendations` key at all; these are
modelled as `none` and `[]`.  The echo-only sub-dicts (`baseline`,
`demands`, `constraints_applied`), which merely copy inputs, are omitted. -/
structure OptResult where
  status : SolverStatus
  error : Option String
  gtas : List GTARecord
  grid_import : ℚ
  boiler_output : ℚ
  sulfur_steam : ℚ
  total_cost : WithTop ℚ
  cost_breakdown : Option CostBreakdown
  baseline_cost : ℚ
  savings : ℚ
  recommendations : List Recommendation

/-- `baseline_gta_load = 0.5` (50% of max capacity). -/
def baseline_gta_load : ℚ := 1/2

/-- `baseline_gta_admission = PHYSICS.MAX_ADMISSION * baseline_gta_load * 3`. -/
def baseline_gta_admission : ℚ := MAX_ADMISSION * baseline_gta_load * 3

/-- The naive-baseline total generator power: for each GTA,
`coef_a * (MAX_ADMISSION * 0.5) + intercept` — the extraction term is
absent from this sum (the flat 30%-of-admission extraction assumption
enters only the baseline boiler steam below). -/
def baseline_gta_power : ℚ :=
  ((get_gta_coefficients 1).coef_a * (MAX_ADMISSION * baseline_gta_load) +
    (get_gta_coefficients 1).intercept) +
  ((get_gta_coefficients 2).coef_a * (MAX_ADMISSION * baseline_gta_load) +
    (get_gta_coefficients 2).intercept) +
  ((get_gta_coefficients 3).coef_a * (MAX_ADMISSION * baseline_gta_load) +
    (get_gta_coefficients 3).intercept)

/-- `baseline_grid_import = max(0, elec_demand - baseline_gta_power)`. -/
def baseline_grid_import (elec_demand : ℚ) : ℚ :=
  max 0 (elec_demand - baseline_gta_power)

/-- `baseline_boiler_steam = max(0, steam_demand - max_sulfur -
MAX_ADMISSION*0.5*3*0.3)` (the assumed 30% extraction). -/
def baseline_boiler_steam (steam_demand max_sulfur : ℚ) : ℚ :=
  max 0 (steam_demand - max_sulfur - MAX_ADMISSION * baseline_gta_load * 3 * (3/10))

/-- The baseline total cost. -/
def baseline_cost_calc (elec_demand steam_demand max_sulfur grid_cost : ℚ) : ℚ :=
  baseline_grid_import elec_demand * grid_cost * 1000 +
  baseline_boiler_steam steam_demand max_sulfur * BOILER_COST +
  max_sulfur * SULFURIC_HEAT_COST +
  baseline_gta_admission * GTA_FUEL_COST * 100

/-- `EnergyOptimizer.optimize`, from the point where the solver has run.
`hour` is the caller's optional hour, `nowHour` stands for
`datetime.now().hour` (used only when `hour is None`), `max_sulfur` is the
free-steam ceiling `calculate_sulfur_steam()` computed at call start, and
`out` is what the external CBC solve produced.  The function is total: the
non-optimal branch returns the zeroed record instead of raising. -/
def optimize (elec_demand steam_demand : ℚ) (constraints : List (String × CVal))
    (hour : Option ℤ) (nowHour : ℤ) (max_sulfur : ℚ) (out : SolverOutcome) : OptResult :=
  let grid_cost := get_grid_cost (hour.getD nowHour)
  -- `constraints` shapes the LP handed to the external solver (see LpFeas)
  -- and is echoed in the omitted constraints_applied field.
  let _ := constraints
  if out.status = SolverStatus.Optimal then
    let x := out.x
    let gtas : List GTARecord :=
      [⟨1, round2 x.A1, round2 x.S1, round2 (predict_gta_power x.A1 x.S1 1)⟩,
       ⟨2, round2 x.A2, round2 x.S2, round2 (predict_gta_power x.A2 x.S2 2)⟩,
       ⟨3, round2 x.A3, round2 x.S3, round2 (predict_gta_power x.A3 x.S3 3)⟩]
    let actual_cost_grid := x.grid * grid_cost * 1000
    let actual_cost_boiler := x.boiler * BOILER_COST
    let actual_cost_sulfur := x.sulfur * SULFURIC_HEAT_COST
    let actual_cost_gta := (gtas.map (fun g => g.admission * GTA_FUEL_COST * 100)).sum
    let total_cost_value :=
      actual_cost_grid + actual_cost_boiler + actual_cost_sulfur + actual_cost_gta
    let bgrid := baseline_grid_import elec_demand
    let bboiler := baseline_boiler_steam steam_demand max_sulfur
    let bcost := baseline_cost_calc elec_demand steam_demand max_sulfur grid_cost
    let savings := bcost - total_cost_value
    { status := .Optimal
      error := none
      gtas := gtas
      grid_import := round2 x.grid
      boiler_output := round2 x.boiler
      sulfur_steam := round2 x.sulfur
      total_cost := (round2 total_cost_value : ℚ)
      cost_breakdown := some ⟨round2 actual_cost_grid, round2 actual_cost_boiler,
        round2 actual_cost_sulfur, round2 actual_cost_gta⟩
      baseline_cost := round2 bcost
      savings := round2 savings
      recommendations := _generate_recommendations gtas x.grid x.boiler x.sulfur
        bgrid bboiler grid_cost savings elec_demand steam_demand hour }
  else
    { status := out.status
      error := some "No optimal solution found"
      gtas := []
      grid_import := 0
      boiler_output := 0
      sulfur_steam := max_sulfur
      total_cost := ⊤
      cost_breakdown := none
      baseline_cost := 0
      savings := 0
      recommendations := [] }

/-- `optimize` together with the `self.last_solution` field: the stored
solution is assigned only on the optimal path; the early `return` of the
failure branch leaves it untouched. -/
def optimizeWithState (last_solution : Option OptResult)
    (elec_demand steam_demand : ℚ) (constraints : List (String × CVal))
    (hour : Option ℤ) (nowHour : ℤ) (max_sulfur : ℚ) (out : SolverOutcome) :
    OptResult × Option OptResult :=
  let r := optimize elec_demand steam_demand constraints hour nowHour max_sulfur out
  if out.status = SolverStatus.Optimal then (r, some r) else (r, last_solution)

/-! ### EnergyOptimizer.calculate_sulfur_steam

The pandas DataFrame is modelled as a list of rows; each row keeps its
`Date` key and the cells of the columns whose name contains
"soufre"/"sulfur" (the column-name scan itself is pure string filtering and
is abstracted into this pre-selected cell list).  A cell is a numeric
value, the placeholder string "Configure" (any capitalisation), some other
string that `float()` can parse, a string `float()` rejects, or a missing
value (pandas NaN).  The result is `Option ℚ` with `none` playing IEEE
NaN, which Python's float addition propagates. -/

inductive Cell where
  | num (q : ℚ)
  | configure
  | numStr (q : ℚ)
  | badStr (s : String)
  | missing
deriving DecidableEq

structure SulfurRow where
  date : ℤ
  cells : List Cell
deriving DecidableEq

/-- What `float(val)` yields for one cell after the "Configure" test:
`.error` models a raised `ValueError`, `.ok none` models NaN. -/
def cellVal : Cell → Except Unit (Option ℚ)
  | .num q => .ok (some q)
  | .configure => .ok (some 0)
  | .numStr q => .ok (some q)
  | .badStr _ => .error ()
  | .missing => .ok none

/-- NaN-propagating addition of floats. -/
def addNan : Option ℚ → Option ℚ → Option ℚ
  | some a, some b => some (a + b)
  | _, _ => none

/-- One iteration of the `total_sulfur` loop: a previously raised error
aborts, otherwise the cell value is added. -/
def sumStep (acc : Except Unit (Option ℚ)) (c : Cell) : Except Unit (Option ℚ) :=
  match acc with
  | .error e => .error e
  | .ok a =>
    match cellVal c with
    | .error e => .error e
    | .ok v => .ok (addNan a v)

/-- The `total_sulfur` accumulation loop over the selected row's cells. -/
def sumCells (cells : List Cell) : Except Unit (Option ℚ) :=
  cells.foldl sumStep (.ok (some 0))

theorem sumStep_error_absorb (cs : List Cell) :
    cs.foldl sumStep (Except.error ()) = Except.error () := by
  induction cs with
  | nil => rfl
  | cons c cs ih => simpa [sumStep] using ih

/-- `EnergyOptimizer.calculate_sulfur_steam`.  No dataset → the fixed
fallback 50.0.  Otherwise the relevant row is the last one, or the first
row whose `Date` equals the requested timestamp; `iloc` on no match raises
`IndexError`, and that — like a `float()` failure on an unparseable cell —
is swallowed by the blanket `except`, which prints a warning and returns
the same fallback 50.0.  A NaN cell propagates into the returned total. -/
def calculate_sulfur_steam (sulfur_data : Option (List SulfurRow))
    (timestamp : Option ℤ) : Option ℚ :=
  match sulfur_data with
  | none => some 50
  | some rows =>
    let row? : Option SulfurRow :=
      match timestamp with
      | none => rows.getLast?
      | some t => (rows.filter (fun r => r.date == t)).head?
    match row? with
    | none => some 50
    | some r =>
      match sumCells r.cells with
      | .error _ => some 50
      | .ok v => v

/-! ## Claim theorems -/

/-- A convenient all-zero assignment for witnesses. -/
def xZero : Assignment := ⟨0, 0, 0, 0, 0, 0, 0, 0, 0⟩

/-- C7: the claim asks that a power prediction for a generator index
outside {1,2,3} fail with an InvalidGeneratorIndex error; the code instead
silently reuses GTA 1's coefficients and returns a numeric power — here,
index 4 at admission 100 T/hr yields 24.89 MW.  The spec itself flags this
source behaviour as a latent defect, so the claim is right and the code is
wrong. -/
theorem spec_c7_silent_fallback_on_invalid_index :
    get_gta_coefficients 4 = get_gta_coefficients 1 ∧
    predict_gta_power 100 0 4 = 2489/100 := by
  constructor
  · rfl
  · norm_num [predict_gta_power, get_gta_coefficients]

/-- C4 counterexample: feeding the baseline load assumption with the
30%-of-admission extraction (admission 95 T/hr, soutirage 28.5 T/hr) into
the Generator Power Model does **not** reproduce the Baseline Estimator's
total power: the baseline power sum has no extraction term, and the three
(negative) `coef_s * 28.5` contributions shift the sum. -/
theorem spec_c4_cex :
    predict_gta_power (MAX_ADMISSION * baseline_gta_load)
        (MAX_ADMISSION * baseline_gta_load * (3/10)) 1 +
      predict_gta_power (MAX_ADMISSION * baseline_gta_load)
        (MAX_ADMISSION * baseline_gta_load * (3/10)) 2 +
      predict_gta_power (MAX_ADMISSION * baseline_gta_load)
        (MAX_ADMISSION * baseline_gta_load * (3/10)) 3 ≠
    baseline_gta_power := by
  norm_num [predict_gta_power, get_gta_coefficients, baseline_gta_power,
    MAX_ADMISSION, baseline_gta_load]

/-- C4 amended: the Generator Power Model evaluated at the baseline load
assumption with **zero** extraction (admission = 50% of the max admission
bound, soutirage = 0) reproduces, for the sum over the three generators,
exactly the total baseline power that the Baseline Estimator uses for the
baseline grid import and the baseline cost. -/
theorem spec_c4_roundtrip_zero_extraction :
    predict_gta_power (MAX_ADMISSION * baseline_gta_load) 0 1 +
      predict_gta_power (MAX_ADMISSION * baseline_gta_load) 0 2 +
      predict_gta_power (MAX_ADMISSION * baseline_gta_load) 0 3 =
    baseline_gta_power := by
  norm_num [predict_gta_power, get_gta_coefficients, baseline_gta_power,
    MAX_ADMISSION, baseline_gta_load]

/-- C2: whenever the solver reports anything other than `Optimal`,
`optimize` returns normally (it is a total function) with an empty
generator list, zero grid import and boiler output, `sulfur_steam` equal to
the availability ceiling computed at call start, `total_cost = +∞`, and the
solver's status preserved. -/
theorem spec_c2_failure_record (elec_demand steam_demand : ℚ)
    (constraints : List (String × CVal)) (hour : Option ℤ) (nowHour : ℤ)
    (max_sulfur : ℚ) (out : SolverOutcome) (h : out.status ≠ SolverStatus.Optimal) :
    (optimize elec_demand steam_demand constraints hour nowHour max_sulfur out).status
        = out.status ∧
    (optimize elec_demand steam_demand constraints hour nowHour max_sulfur out).gtas = [] ∧
    (optimize elec_demand steam_demand constraints hour nowHour max_sulfur out).grid_import
        = 0 ∧
    (optimize elec_demand steam_demand constraints hour nowHour max_sulfur out).boiler_output
        = 0 ∧
    (optimize elec_demand steam_demand constraints hour nowHour max_sulfur out).sulfur_steam
        = max_sulfur ∧
    (optimize elec_demand steam_demand constraints hour nowHour max_sulfur out).total_cost
        = ⊤ := by
  unfold optimize
  rw [if_neg h]
  exact ⟨rfl, rfl, rfl, rfl, rfl, rfl⟩

/-- C2 witness at a concrete infeasible outcome. -/
theorem spec_c2_failure_record_witness :
    (⟨SolverStatus.Infeasible, xZero⟩ : SolverOutcome).status ≠ SolverStatus.Optimal ∧
    (optimize 60 400 [] (some 14) 14 50 ⟨SolverStatus.Infeasible, xZero⟩).status
        = SolverStatus.Infeasible ∧
    (optimize 60 400 [] (some 14) 14 50 ⟨SolverStatus.Infeasible, xZero⟩).total_cost = ⊤ := by
  refine ⟨by decide, ?_, ?_⟩
  · exact (spec_c2_failure_record 60 400 [] (some 14) 14 50
      ⟨SolverStatus.Infeasible, xZero⟩ (by decide)).1
  · exact (spec_c2_failure_record 60 400 [] (some 14) 14 50
      ⟨SolverStatus.Infeasible, xZero⟩ (by decide)).2.2.2.2.2

/-- C10: on any non-optimal solver report, the failure record is returned
to the caller while the retained `last_solution` introspection state is
left exactly as it was before the call. -/
theorem spec_c10_last_solution_untouched_on_failure (last_solution : Option OptResult)
    (elec_demand steam_demand : ℚ) (constraints : List (String × CVal))
    (hour : Option ℤ) (nowHour : ℤ) (max_sulfur : ℚ) (out : SolverOutcome)
    (h : out.status ≠ SolverStatus.Optimal) :
    optimizeWithState last_solution elec_demand steam_demand constraints hour nowHour
        max_sulfur out =
      (optimize elec_demand steam_demand constraints hour nowHour max_sulfur out,
        last_solution) := by
  unfold optimizeWithState
  rw [if_neg h]

/-- C10 witness: a failed call keeps a `none` state `none`. -/
theorem spec_c10_witness :
    (optimizeWithState none 60 400 [] (some 14) 14 50
        ⟨SolverStatus.Unbounded, xZero⟩).2 = none := by
  rw [spec_c10_last_solution_untouched_on_failure none 60 400 [] (some 14) 14 50
    ⟨SolverStatus.Unbounded, xZero⟩ (by decide)]

/-- C8 counterexample: a requested timestamp (1) matching no row of the
dataset does **not** fail with a NoMatchingRecord error — the `IndexError`
from `.iloc[0]` is swallowed by the blanket `except`, and the estimator
returns the fallback steam value 50.0. -/
theorem spec_c8_cex :
    calculate_sulfur_steam (some [⟨0, [Cell.num 3]⟩]) (some 1) = some 50 := by
  rfl

/-- C8 amended: a timestamp matching no row yields the fallback constant
50.0 instead of an error; the "Configure" placeholder is treated as zero;
a cell that `float()` cannot parse makes the whole call fall back to 50.0;
and a missing (NaN) cell propagates NaN into the returned total.  The
estimator never raises. -/
theorem spec_c8_malformed_data_handling :
    (∀ (rows : List SulfurRow) (t : ℤ),
        rows.filter (fun r => r.date == t) = [] →
        calculate_sulfur_steam (some rows) (some t) = some 50) ∧
    (∀ (d : ℤ) (q : ℚ),
        calculate_sulfur_steam (some [⟨d, [Cell.configure, Cell.num q]⟩]) none = some q) ∧
    (∀ (d : ℤ) (s : String) (cs : List Cell),
        calculate_sulfur_steam (some [⟨d, Cell.badStr s :: cs⟩]) none = some 50) ∧
    (∀ (d : ℤ) (q : ℚ),
        calculate_sulfur_steam (some [⟨d, [Cell.missing, Cell.num q]⟩]) none = none) := by
  refine ⟨?_, ?_, ?_, ?_⟩
  · intro rows t h
    simp [calculate_sulfur_steam, h]
  · intro d q
    simp [calculate_sulfur_steam, sumCells, sumStep, cellVal, addNan]
  · intro d s cs
    simp [calculate_sulfur_steam, sumCells, sumStep, cellVal, sumStep_error_absorb]
  · intro d q
    simp [calculate_sulfur_steam, sumCells, sumStep, cellVal, addNan]

/-- C8 witness: concrete instances of the amended behaviours. -/
theorem spec_c8_witness :
    calculate_sulfur_steam (some [⟨0, [Cell.num 3]⟩]) (some 2) = some 50 ∧
    calculate_sulfur_steam (some [⟨0, [Cell.configure, Cell.num 7]⟩]) none = some 7 ∧
    calculate_sulfur_steam (some [⟨0, [Cell.badStr "oops"]⟩]) none = some 50 ∧
    calculate_sulfur_steam (some [⟨0, [Cell.missing, Cell.num 7]⟩]) none = none := by
  exact ⟨spec_c8_malformed_data_handling.1 [⟨0, [Cell.num 3]⟩] 2 (by decide),
    spec_c8_malformed_data_handling.2.1 0 7,
    spec_c8_malformed_data_handling.2.2.1 0 "oops" [],
    spec_c8_malformed_data_handling.2.2.2 0 7⟩

/-- An assignment importing 120 MW from the grid, everything else zero. -/
def xGrid120 : Assignment := ⟨0, 0, 0, 0, 0, 0, 0, 120, 0⟩

/-- An assignment importing 95 MW from the grid, everything else zero. -/
def xGrid95 : Assignment := ⟨0, 0, 0, 0, 0, 0, 0, 95, 0⟩

/-- C5 counterexample: with the business constraint
`max_grid_import = 150` the LP does **not** permit a grid import of
120 MW — `optimize` only *adds* the constraint `E_grid ≤ 150` while the
`Grid_Import` variable keeps its `upBound = 100` from creation, so the
effective bound is `min(100, V)`, not `V`.  The assignment below satisfies
every constraint except the 100 MW variable bound, yet is infeasible. -/
theorem spec_c5_cex :
    ¬ LpFeas 0 0 50 [("max_grid_import", CVal.num 150)] xGrid120 ∧
    xGrid120.grid ≤ 150 := by
  constructor
  · intro h
    obtain ⟨⟨_, _, _, _, _, _, _, ⟨_, hg⟩, _⟩, _⟩ := h
    norm_num [xGrid120, MAX_GRID_IMPORT] at hg
  · norm_num [xGrid120]

/-- C5 amended: supplying `max_grid_import = V` adds exactly the extra
constraint `grid ≤ V` on top of the unconstrained LP, so the effective
upper bound on grid import is `min(MAX_GRID_IMPORT, V)` = min(100, V); a
`V` greater than 100 therefore does not permit imports above 100 MW. -/
theorem spec_c5_grid_override_is_min (V elec_demand steam_demand max_sulfur : ℚ)
    (x : Assignment) :
    (LpFeas elec_demand steam_demand max_sulfur [("max_grid_import", CVal.num V)] x ↔
      (LpFeas elec_demand steam_demand max_sulfur [] x ∧ x.grid ≤ V)) ∧
    (LpFeas elec_demand steam_demand max_sulfur [("max_grid_import", CVal.num V)] x →
      x.grid ≤ min MAX_GRID_IMPORT V) := by
  have hc : LpFeas elec_demand steam_demand max_sulfur
      [("max_grid_import", CVal.num V)] x ↔
      (LpFeas elec_demand steam_demand max_sulfur [] x ∧ x.grid ≤ V) := by
    unfold LpFeas LpFeasTol
    simp only [List.mem_singleton, List.not_mem_nil, forall_eq, false_implies,
      forall_const, and_true]
    have hcons : ConsTol 0 x ("max_grid_import", CVal.num V) ↔ x.grid ≤ V := by
      simp [ConsTol]
    rw [hcons]
    tauto
  refine ⟨hc, fun h => ?_⟩
  obtain ⟨h0, hgV⟩ := hc.mp h
  obtain ⟨⟨_, _, _, _, _, _, _, ⟨_, hg100⟩, _⟩, _⟩ := h0
  refine le_min ?_ hgV
  linarith

/-- C5 witness: a 95 MW import is feasible under `max_grid_import = 150`
and is certified below `min(100, 150)`. -/
theorem spec_c5_witness :
    LpFeas 0 0 50 [("max_grid_import", CVal.num 150)] xGrid95 ∧
    xGrid95.grid ≤ min MAX_GRID_IMPORT 150 := by
  have hfeas : LpFeas 0 0 50 [("max_grid_import", CVal.num 150)] xGrid95 := by
    unfold LpFeas LpFeasTol VarBoundsTol total_gta_power gta_power_lin lp_total_steam
    norm_num [xGrid95, ConsTol, get_gta_coefficients, MIN_ADMISSION, MAX_ADMISSION,
      MIN_SOUTIRAGE, MAX_SOUTIRAGE, MAX_BOILER_CAPACITY, MAX_GRID_IMPORT,
      POWER_SAFETY_MARGIN, STEAM_SAFETY_MARGIN, List.forall_mem_cons]
    all_goals intro hcontra; simp at hcontra
  exact ⟨hfeas, (spec_c5_grid_override_is_min 150 0 0 50 xGrid95).2 hfeas⟩

/-- The LP power expression is a lower bound for the floored power model. -/
theorem predict_ge_lin (a s : ℚ) (n : ℤ) :
    gta_power_lin a s n ≤ predict_gta_power a s n :=
  le_max_right _ _

/-- C1: whenever the solver status is `Optimal` and the point it returns
satisfies the LP constraints within a numerical tolerance `tol`, the
dispatch record `optimize` builds satisfies the three invariants up to
`tol` plus the slack introduced by the final rounding to 2 decimal places
(at most 1/200 per rounded quantity): each generator's extraction is below
its admission, total predicted power plus grid import covers
`elec_demand × POWER_SAFETY_MARGIN`, and total steam sources cover
`steam_demand × STEAM_SAFETY_MARGIN`. -/
theorem spec_c1_optimal_invariants (elec_demand steam_demand : ℚ)
    (constraints : List (String × CVal)) (hour : Option ℤ) (nowHour : ℤ)
    (max_sulfur tol : ℚ) (x : Assignment) (_htol : 0 ≤ tol)
    (hfeas : LpFeasTol tol elec_demand steam_demand max_sulfur constraints x) :
    (∀ g ∈ (optimize elec_demand steam_demand constraints hour nowHour max_sulfur
        ⟨SolverStatus.Optimal, x⟩).gtas,
      g.soutirage ≤ g.admission + tol + 1/100) ∧
    (((optimize elec_demand steam_demand constraints hour nowHour max_sulfur
          ⟨SolverStatus.Optimal, x⟩).gtas.map GTARecord.power).sum +
        (optimize elec_demand steam_demand constraints hour nowHour max_sulfur
          ⟨SolverStatus.Optimal, x⟩).grid_import ≥
      elec_demand * POWER_SAFETY_MARGIN - tol - 1/50) ∧
    (((optimize elec_demand steam_demand constraints hour nowHour max_sulfur
          ⟨SolverStatus.Optimal, x⟩).gtas.map GTARecord.soutirage).sum +
        (optimize elec_demand steam_demand constraints hour nowHour max_sulfur
          ⟨SolverStatus.Optimal, x⟩).boiler_output +
        (optimize elec_demand steam_demand constraints hour nowHour max_sulfur
          ⟨SolverStatus.Optimal, x⟩).sulfur_steam ≥
      steam_demand * STEAM_SAFETY_MARGIN - tol - 1/40) := by
  obtain ⟨hb, ⟨h1, h2, h3⟩, hpow, hsteam, -⟩ := hfeas
  have hg : (optimize elec_demand steam_demand constraints hour nowHour max_sulfur
      ⟨SolverStatus.Optimal, x⟩).gtas =
      [⟨1, round2 x.A1, round2 x.S1, round2 (predict_gta_power x.A1 x.S1 1)⟩,
       ⟨2, round2 x.A2, round2 x.S2, round2 (predict_gta_power x.A2 x.S2 2)⟩,
       ⟨3, round2 x.A3, round2 x.S3, round2 (predict_gta_power x.A3 x.S3 3)⟩] := rfl
  have hgi : (optimize elec_demand steam_demand constraints hour nowHour max_sulfur
      ⟨SolverStatus.Optimal, x⟩).grid_import = round2 x.grid := rfl
  have hbo : (optimize elec_demand steam_demand constraints hour nowHour max_sulfur
      ⟨SolverStatus.Optimal, x⟩).boiler_output = round2 x.boiler := rfl
  have hsu : (optimize elec_demand steam_demand constraints hour nowHour max_sulfur
      ⟨SolverStatus.Optimal, x⟩).sulfur_steam = round2 x.sulfur := rfl
  unfold total_gta_power at hpow
  unfold lp_total_steam at hsteam
  refine ⟨?_, ?_, ?_⟩
  · rw [hg]
    intro g hgmem
    simp only [List.mem_cons, List.not_mem_nil, or_false] at hgmem
    rcases hgmem with h | h | h <;> subst h <;> dsimp only
    · have ha := round2_ge x.A1
      have hs := round2_le x.S1
      linarith
    · have ha := round2_ge x.A2
      have hs := round2_le x.S2
      linarith
    · have ha := round2_ge x.A3
      have hs := round2_le x.S3
      linarith
  · rw [hg, hgi]
    simp only [List.map_cons, List.map_nil, List.sum_cons, List.sum_nil]
    have p1 := round2_ge (predict_gta_power x.A1 x.S1 1)
    have p2 := round2_ge (predict_gta_power x.A2 x.S2 2)
    have p3 := round2_ge (predict_gta_power x.A3 x.S3 3)
    have l1 := predict_ge_lin x.A1 x.S1 1
    have l2 := predict_ge_lin x.A2 x.S2 2
    have l3 := predict_ge_lin x.A3 x.S3 3
    have gg := round2_ge x.grid
    linarith
  · rw [hg, hbo, hsu]
    simp only [List.map_cons, List.map_nil, List.sum_cons, List.sum_nil]
    have s1 := round2_ge x.S1
    have s2 := round2_ge x.S2
    have s3 := round2_ge x.S3
    have bb := round2_ge x.boiler
    have ss := round2_ge x.sulfur
    linarith

/-- C1 witness: demands (0, 0), no business constraints, tolerance 0, and
the solver point importing 95 MW. -/
theorem spec_c1_witness :
    (0:ℚ) ≤ 0 ∧ LpFeasTol 0 0 0 50 [] xGrid95 ∧
    (((optimize 0 0 [] (some 14) 14 50
          ⟨SolverStatus.Optimal, xGrid95⟩).gtas.map GTARecord.power).sum +
        (optimize 0 0 [] (some 14) 14 50
          ⟨SolverStatus.Optimal, xGrid95⟩).grid_import ≥
      0 * POWER_SAFETY_MARGIN - 0 - 1/50) := by
  have hfeas : LpFeasTol 0 0 0 50 [] xGrid95 := by
    unfold LpFeasTol VarBoundsTol total_gta_power gta_power_lin lp_total_steam
    norm_num [xGrid95, get_gta_coefficients, MIN_ADMISSION, MAX_ADMISSION,
      MIN_SOUTIRAGE, MAX_SOUTIRAGE, MAX_BOILER_CAPACITY, MAX_GRID_IMPORT,
      POWER_SAFETY_MARGIN, STEAM_SAFETY_MARGIN]
  exact ⟨le_refl 0, hfeas,
    (spec_c1_optimal_invariants 0 0 [] (some 14) 14 50 0 xGrid95 (le_refl 0) hfeas).2.1⟩

/-- Raising the electricity demand only tightens the `Electricity_Demand`
constraint, so the feasible set shrinks. -/
theorem LpFeas_mono_elec {d1 d2 steam_demand max_sulfur : ℚ}
    {constraints : List (String × CVal)} {y : Assignment} (h12 : d1 ≤ d2)
    (h : LpFeas d2 steam_demand max_sulfur constraints y) :
    LpFeas d1 steam_demand max_sulfur constraints y := by
  obtain ⟨hb, hp, hpow, hs, hc⟩ := h
  refine ⟨hb, hp, ?_, hs, hc⟩
  have hmargin : d1 * POWER_SAFETY_MARGIN ≤ d2 * POWER_SAFETY_MARGIN := by
    have : (0:ℚ) ≤ POWER_SAFETY_MARGIN := by norm_num [POWER_SAFETY_MARGIN]
    exact mul_le_mul_of_nonneg_right h12 this
  linarith

/-- The `total_cost` field of a successful `optimize` call, written out:
the value the caller sees is `round(total_cost_value, 2)` where the GTA
term is recomputed from the already-rounded admissions. -/
theorem optimize_total_cost_eq (elec_demand steam_demand : ℚ)
    (constraints : List (String × CVal)) (hour : Option ℤ) (nowHour : ℤ)
    (max_sulfur : ℚ) (x : Assignment) :
    (optimize elec_demand steam_demand constraints hour nowHour max_sulfur
        ⟨SolverStatus.Optimal, x⟩).total_cost =
      ((round2 (x.grid * get_grid_cost (hour.getD nowHour) * 1000 +
        x.boiler * BOILER_COST + x.sulfur * SULFURIC_HEAT_COST +
        (round2 x.A1 * GTA_FUEL_COST * 100 + (round2 x.A2 * GTA_FUEL_COST * 100 +
          (round2 x.A3 * GTA_FUEL_COST * 100 + 0)))) : ℚ) : WithTop ℚ) := rfl

/-- The returned `total_cost` differs from the LP objective at the solver
point by at most 49/50 DH/hr: 1/200 from each of the three rounded
admissions scaled by the 65 DH/T fuel rate, plus 1/200 from the final
rounding of the total. -/
theorem round2_total_bound (gc g b su a1 a2 a3 : ℚ) :
    |round2 (g * gc * 1000 + b * BOILER_COST + su * SULFURIC_HEAT_COST +
        (round2 a1 * GTA_FUEL_COST * 100 + (round2 a2 * GTA_FUEL_COST * 100 +
          (round2 a3 * GTA_FUEL_COST * 100 + 0)))) -
      (g * gc * 1000 + b * BOILER_COST + su * SULFURIC_HEAT_COST +
        (a1 * GTA_FUEL_COST * 100 + a2 * GTA_FUEL_COST * 100 +
          a3 * GTA_FUEL_COST * 100))| ≤ 49/50 := by
  have hu := round2_le (g * gc * 1000 + b * BOILER_COST + su * SULFURIC_HEAT_COST +
    (round2 a1 * GTA_FUEL_COST * 100 + (round2 a2 * GTA_FUEL_COST * 100 +
      (round2 a3 * GTA_FUEL_COST * 100 + 0))))
  have hl := round2_ge (g * gc * 1000 + b * BOILER_COST + su * SULFURIC_HEAT_COST +
    (round2 a1 * GTA_FUEL_COST * 100 + (round2 a2 * GTA_FUEL_COST * 100 +
      (round2 a3 * GTA_FUEL_COST * 100 + 0))))
  have ha1u := round2_le a1
  have ha1l := round2_ge a1
  have ha2u := round2_le a2
  have ha2l := round2_ge a2
  have ha3u := round2_le a3
  have ha3l := round2_ge a3
  rw [abs_le]
  unfold GTA_FUEL_COST at *
  constructor <;> nlinarith [hu, hl, ha1u, ha1l, ha2u, ha2l, ha3u, ha3l]

/-- Tied optimum A for the LP with demands (0, 40), no free steam: all
steam from soutirage, split (14.0051, 14.0051, 13.9898) so that two
admissions round **up** to 14.01. -/
def xTie1 : Assignment := ⟨140051/10000, 140051/10000, 139898/10000,
  140051/10000, 140051/10000, 139898/10000, 0, 0, 0⟩

/-- Tied optimum B for the LP with demands (1/2, 40), no free steam: the
equal-cost split (14.0049, 14.0049, 13.9902), whose first two admissions
round **down** to 14.00. -/
def xTie2 : Assignment := ⟨140049/10000, 140049/10000, 139902/10000,
  140049/10000, 140049/10000, 139902/10000, 0, 0, 0⟩

/-- Every feasible point of the steam-40 LP with zero free steam costs at
least 65·42 = 2730 DH/hr: the steam constraint forces 42 T/hr of
soutirage-or-boiler, soutirage needs matching admission at 65 DH/T and
boiler costs 284 DH/T. -/
theorem tie_min_cost (elec_demand : ℚ) (y : Assignment)
    (hy : LpFeas elec_demand 40 0 [] y) :
    2730 ≤ lpCost (get_grid_cost 14) y := by
  obtain ⟨⟨⟨ha1l, ha1u⟩, ⟨ha2l, ha2u⟩, ⟨ha3l, ha3u⟩, ⟨hs1l, hs1u⟩, ⟨hs2l, hs2u⟩,
    ⟨hs3l, hs3u⟩, ⟨hbl, hbu⟩, ⟨hgl, hgu⟩, ⟨hsul, hsuu⟩⟩,
    ⟨hsa1, hsa2, hsa3⟩, -, hsteam, -⟩ := hy
  have hgc : get_grid_cost 14 = GRID_STANDARD_COST := by
    norm_num [get_grid_cost, PEAK_HOURS_START, PEAK_HOURS_END,
      STANDARD_HOURS_START, STANDARD_HOURS_END]
  unfold lp_total_steam at hsteam
  unfold lpCost
  rw [hgc]
  unfold GRID_STANDARD_COST BOILER_COST SULFURIC_HEAT_COST GTA_FUEL_COST
  norm_num [STEAM_SAFETY_MARGIN, MIN_ADMISSION, MIN_SOUTIRAGE] at *
  linarith

theorem xTie1_sound :
    SolverSound 0 40 0 (get_grid_cost 14) [] ⟨SolverStatus.Optimal, xTie1⟩ := by
  refine ⟨?_, ?_⟩
  · unfold LpFeas LpFeasTol VarBoundsTol total_gta_power gta_power_lin lp_total_steam
    norm_num [xTie1, get_gta_coefficients, MIN_ADMISSION, MAX_ADMISSION,
      MIN_SOUTIRAGE, MAX_SOUTIRAGE, MAX_BOILER_CAPACITY, MAX_GRID_IMPORT,
      POWER_SAFETY_MARGIN, STEAM_SAFETY_MARGIN]
  · intro y hy
    have h := tie_min_cost 0 y hy
    have hval : lpCost (get_grid_cost 14) xTie1 = 2730 := by
      unfold lpCost xTie1
      norm_num [GTA_FUEL_COST]
    rw [hval]
    exact h

theorem xTie2_sound :
    SolverSound (1/2) 40 0 (get_grid_cost 14) [] ⟨SolverStatus.Optimal, xTie2⟩ := by
  refine ⟨?_, ?_⟩
  · unfold LpFeas LpFeasTol VarBoundsTol total_gta_power gta_power_lin lp_total_steam
    norm_num [xTie2, get_gta_coefficients, MIN_ADMISSION, MAX_ADMISSION,
      MIN_SOUTIRAGE, MAX_SOUTIRAGE, MAX_BOILER_CAPACITY, MAX_GRID_IMPORT,
      POWER_SAFETY_MARGIN, STEAM_SAFETY_MARGIN]
  · intro y hy
    have h := tie_min_cost (1/2) y hy
    have hval : lpCost (get_grid_cost 14) xTie2 = 2730 := by
      unfold lpCost xTie2
      norm_num [GTA_FUEL_COST]
    rw [hval]
    exact h

theorem round2_140051 : round2 ((140051:ℚ)/10000) = 1401/100 := by
  unfold round2
  rw [round_eq]
  norm_num

theorem round2_139898 : round2 ((139898:ℚ)/10000) = 1399/100 := by
  unfold round2
  rw [round_eq]
  norm_num

theorem round2_140049 : round2 ((140049:ℚ)/10000) = 1400/100 := by
  unfold round2
  rw [round_eq]
  norm_num

theorem round2_139902 : round2 ((139902:ℚ)/10000) = 1399/100 := by
  unfold round2
  rw [round_eq]
  norm_num

/-- C3 counterexample: electricity demands 0 ≤ 1/2 with steam demand 40
and no free steam.  Both solver points are certified exact optima of their
LPs (equal-cost soutirage splits of the tied optimum, objective value 2730
DH/hr each), yet the `total_cost` that `optimize` returns **decreases**
from 2730.65 to 2729.35 DH/hr, because the returned value recomputes the
fuel term from 2-decimal-rounded admissions (14.0051 rounds up to 14.01,
14.0049 rounds down to 14.00) and the claim carries no rounding
allowance. -/
theorem spec_c3_cex :
    (0:ℚ) ≤ 1/2 ∧
    SolverSound 0 40 0 (get_grid_cost 14) [] ⟨SolverStatus.Optimal, xTie1⟩ ∧
    SolverSound (1/2) 40 0 (get_grid_cost 14) [] ⟨SolverStatus.Optimal, xTie2⟩ ∧
    (optimize 0 40 [] (some 14) 14 0 ⟨SolverStatus.Optimal, xTie1⟩).total_cost =
      ((273065/100 : ℚ) : WithTop ℚ) ∧
    (optimize (1/2) 40 [] (some 14) 14 0 ⟨SolverStatus.Optimal, xTie2⟩).total_cost =
      ((272935/100 : ℚ) : WithTop ℚ) ∧
    ¬ ((optimize 0 40 [] (some 14) 14 0 ⟨SolverStatus.Optimal, xTie1⟩).total_cost ≤
        (optimize (1/2) 40 [] (some 14) 14 0 ⟨SolverStatus.Optimal, xTie2⟩).total_cost) := by
  have hv1 : (optimize 0 40 [] (some 14) 14 0
      ⟨SolverStatus.Optimal, xTie1⟩).total_cost = ((273065/100 : ℚ) : WithTop ℚ) := by
    rw [optimize_total_cost_eq]
    simp only [xTie1]
    rw [round2_140051, round2_139898]
    have harg : ((0:ℚ) * get_grid_cost ((some 14).getD 14) * 1000 + 0 * BOILER_COST +
        0 * SULFURIC_HEAT_COST + ((1401:ℚ)/100 * GTA_FUEL_COST * 100 +
          ((1401:ℚ)/100 * GTA_FUEL_COST * 100 + ((1399:ℚ)/100 * GTA_FUEL_COST * 100 + 0))))
        = 273065/100 := by
      norm_num [GTA_FUEL_COST, BOILER_COST, SULFURIC_HEAT_COST]
    rw [harg]
    have : round2 ((273065:ℚ)/100) = 273065/100 := by
      unfold round2
      rw [round_eq]
      norm_num
    rw [this]
  have hv2 : (optimize (1/2) 40 [] (some 14) 14 0
      ⟨SolverStatus.Optimal, xTie2⟩).total_cost = ((272935/100 : ℚ) : WithTop ℚ) := by
    rw [optimize_total_cost_eq]
    simp only [xTie2]
    rw [round2_140049, round2_139902]
    have harg : ((0:ℚ) * get_grid_cost ((some 14).getD 14) * 1000 + 0 * BOILER_COST +
        0 * SULFURIC_HEAT_COST + ((1400:ℚ)/100 * GTA_FUEL_COST * 100 +
          ((1400:ℚ)/100 * GTA_FUEL_COST * 100 + ((1399:ℚ)/100 * GTA_FUEL_COST * 100 + 0))))
        = 272935/100 := by
      norm_num [GTA_FUEL_COST, BOILER_COST, SULFURIC_HEAT_COST]
    rw [harg]
    have : round2 ((272935:ℚ)/100) = 272935/100 := by
      unfold round2
      rw [round_eq]
      norm_num
    rw [this]
  refine ⟨by norm_num, xTie1_sound, xTie2_sound, hv1, hv2, ?_⟩
  rw [hv1, hv2, WithTop.coe_le_coe]
  norm_num

/-- C3 amended: the `total_cost` `optimize` returns is monotone
non-decreasing in electricity demand **up to the rounding slack of the
result extraction**: for a fixed steam demand, business-constraint set,
hour and free-steam ceiling, and sound solver outcomes for demands
`d1 ≤ d2` (a non-optimal outcome counted as infinite cost), the value
returned for `d1` exceeds the value returned for `d2` by at most
49/25 DH/hr — twice the 49/50 bound on the distance between the returned
value (recomputed from 2-decimal-rounded admissions, then rounded again)
and the exact LP objective, which itself is exactly monotone. -/
theorem spec_c3_total_cost_near_monotone (d1 d2 steam_demand max_sulfur : ℚ)
    (constraints : List (String × CVal)) (hour : Option ℤ) (nowHour : ℤ)
    (o1 o2 : SolverOutcome) (h12 : d1 ≤ d2)
    (h1 : SolverSound d1 steam_demand max_sulfur
      (get_grid_cost (hour.getD nowHour)) constraints o1)
    (h2 : SolverSound d2 steam_demand max_sulfur
      (get_grid_cost (hour.getD nowHour)) constraints o2) :
    (optimize d1 steam_demand constraints hour nowHour max_sulfur o1).total_cost ≤
      (optimize d2 steam_demand constraints hour nowHour max_sulfur o2).total_cost +
        ((49/25 : ℚ) : WithTop ℚ) := by
  rcases o1 with ⟨s1, x1⟩
  rcases o2 with ⟨s2, x2⟩
  unfold SolverSound at h1 h2
  cases s2 with
  | Optimal =>
    obtain ⟨hf2, hmin2⟩ := h2
    have hf1 : LpFeas d1 steam_demand max_sulfur constraints x2 :=
      LpFeas_mono_elec h12 hf2
    cases s1 with
    | Optimal =>
      obtain ⟨-, hmin1⟩ := h1
      have hexact : lpCost (get_grid_cost (hour.getD nowHour)) x1 ≤
          lpCost (get_grid_cost (hour.getD nowHour)) x2 := hmin1 x2 hf1
      rw [optimize_total_cost_eq, optimize_total_cost_eq, ← WithTop.coe_add,
        WithTop.coe_le_coe]
      have hb1 := round2_total_bound (get_grid_cost (hour.getD nowHour))
        x1.grid x1.boiler x1.sulfur x1.A1 x1.A2 x1.A3
      have hb2 := round2_total_bound (get_grid_cost (hour.getD nowHour))
        x2.grid x2.boiler x2.sulfur x2.A1 x2.A2 x2.A3
      rw [abs_le] at hb1 hb2
      unfold lpCost at hexact
      linarith [hb1.1, hb1.2, hb2.1, hb2.2]
    | NotSolved => exact absurd hf1 (h1 x2)
    | Infeasible => exact absurd hf1 (h1 x2)
    | Unbounded => exact absurd hf1 (h1 x2)
    | Undefined => exact absurd hf1 (h1 x2)
  | NotSolved =>
    rw [show (optimize d2 steam_demand constraints hour nowHour max_sulfur
      ⟨SolverStatus.NotSolved, x2⟩).total_cost = ⊤ from rfl, top_add _]
    exact le_top
  | Infeasible =>
    rw [show (optimize d2 steam_demand constraints hour nowHour max_sulfur
      ⟨SolverStatus.Infeasible, x2⟩).total_cost = ⊤ from rfl, top_add _]
    exact le_top
  | Unbounded =>
    rw [show (optimize d2 steam_demand constraints hour nowHour max_sulfur
      ⟨SolverStatus.Unbounded, x2⟩).total_cost = ⊤ from rfl, top_add _]
    exact le_top
  | Undefined =>
    rw [show (optimize d2 steam_demand constraints hour nowHour max_sulfur
      ⟨SolverStatus.Undefined, x2⟩).total_cost = ⊤ from rfl, top_add _]
    exact le_top

/-- C3 witness: the amended bound at the tied optima of the
counterexample — the returned 2730.65 DH/hr for demand 0 is within
49/25 DH/hr of the returned 2729.35 DH/hr for demand 1/2. -/
theorem spec_c3_witness :
    (optimize 0 40 [] (some 14) 14 0 ⟨SolverStatus.Optimal, xTie1⟩).total_cost ≤
      (optimize (1/2) 40 [] (some 14) 14 0 ⟨SolverStatus.Optimal, xTie2⟩).total_cost +
        ((49/25 : ℚ) : WithTop ℚ) :=
  spec_c3_total_cost_near_monotone 0 (1/2) 40 0 [] (some 14) 14
    ⟨SolverStatus.Optimal, xTie1⟩ ⟨SolverStatus.Optimal, xTie2⟩ (by norm_num)
    xTie1_sound xTie2_sound

/-! ### Helper lemmas for locating titles in the emitted rule output -/

theorem hasRec_nil (t : String) : hasRec [] t = false := rfl

theorem hasRec_singleton (r : Recommendation) (t : String) :
    hasRec [r] t = (r.title == t) := by simp [hasRec]

theorem hasRec_ite (c : Prop) [Decidable c] (l1 l2 : List Recommendation) (t : String) :
    hasRec (if c then l1 else l2) t = if c then hasRec l1 t else hasRec l2 t :=
  apply_ite (hasRec · t) c l1 l2

theorem hasRec_branch_savings (sv : ℚ) (t : String)
    (h : ("Optimization Savings Identified" == t) = false) :
    hasRec (branch_savings sv) t = false := by
  simp [branch_savings, hasRec_ite, hasRec_singleton, hasRec_nil, h, ite_self]

theorem hasRec_branch_gta_one (n : ℤ) (a s p : ℚ) (t : String)
    (h1 : (("Push GTA " ++ toString n ++ " to Capacity") == t) = false)
    (h2 : (("Adjust GTA " ++ toString n ++ " Setpoint") == t) = false) :
    hasRec (branch_gta_one ⟨n, a, s, p⟩) t = false := by
  simp [branch_gta_one, hasRec_ite, hasRec_singleton, hasRec_nil, h1, h2, ite_self]

theorem hasRec_branch_boiler (bb bo : ℚ) (t : String)
    (h1 : ("Shutdown Auxiliary Boiler" == t) = false)
    (h2 : ("Expensive Steam Source Active" == t) = false) :
    hasRec (branch_boiler bb bo) t = false := by
  simp [branch_boiler, hasRec_ite, hasRec_singleton, hasRec_nil, h1, h2, ite_self]

theorem hasRec_branch_peak (pk : Bool) (gi : ℚ) (t : String)
    (h1 : ("Peak Tariff Alert (1.271 DH/kWh)" == t) = false)
    (h2 : ("Peak Shaving Successful" == t) = false) :
    hasRec (branch_peak pk gi) t = false := by
  simp [branch_peak, hasRec_ite, hasRec_singleton, hasRec_nil, h1, h2, ite_self]

theorem hasRec_branch_grid (bg gi : ℚ) (t : String)
    (h1 : ("Grid Import Optimized" == t) = false)
    (h2 : ("Grid Capacity Warning" == t) = false) :
    hasRec (branch_grid bg gi) t = false := by
  simp [branch_grid, hasRec_ite, hasRec_singleton, hasRec_nil, h1, h2, ite_self]

theorem hasRec_branch_sulfur_util (su : ℚ) (t : String)
    (h : ("Free Steam Maximized" == t) = false) :
    hasRec (branch_sulfur_util su) t = false := by
  simp [branch_sulfur_util, hasRec_ite, hasRec_singleton, hasRec_nil, h, ite_self]

theorem hasRec_branch_active (gtas : List GTARecord) (t : String)
    (h : ("No GTAs Running" == t) = false) :
    hasRec (branch_active gtas) t = false := by
  simp [branch_active, hasRec_ite, hasRec_singleton, hasRec_nil, h, ite_self]

theorem hasRec_branch_power_capacity (ed : ℚ) (t : String)
    (h : ("Demand Exceeds Plant Capacity" == t) = false) :
    hasRec (branch_power_capacity ed) t = false := by
  simp [branch_power_capacity, hasRec_ite, hasRec_singleton, hasRec_nil, h, ite_self]

theorem hasRec_branch_steam_capacity (sd : ℚ) (t : String)
    (h : ("Steam Demand Infeasible" == t) = false) :
    hasRec (branch_steam_capacity sd) t = false := by
  simp [branch_steam_capacity, hasRec_ite, hasRec_singleton, hasRec_nil, h, ite_self]

theorem hasRec_branch_offpeak (hour : Option ℤ) (t : String)
    (h : ("Off-Peak Advantage Active" == t) = false) :
    hasRec (branch_offpeak hour) t = false := by
  simp [branch_offpeak, hasRec_ite, hasRec_singleton, hasRec_nil, h, ite_self]

/-- The emitted list of a full engine run contains a title owned by the
pressure rule exactly when the pressure branch emits it: no other rule
group uses the titles "MP Pressure Risk" or "Process Reliability: Stable". -/
theorem hasRec_gen_pressure_only (a1 s1 p1 a2 s2 p2 a3 s3 p3 gi bo su bg bb gc sv ed sd : ℚ)
    (hour : Option ℤ) (t : String)
    (ht : t = "MP Pressure Risk" ∨ t = "Process Reliability: Stable") :
    hasRec (_generate_recommendations
        [⟨1, a1, s1, p1⟩, ⟨2, a2, s2, p2⟩, ⟨3, a3, s3, p3⟩]
        gi bo su bg bb gc sv ed sd hour) t =
      hasRec (branch_pressure [⟨1, a1, s1, p1⟩, ⟨2, a2, s2, p2⟩, ⟨3, a3, s3, p3⟩] su bo sd)
        t := by
  unfold _generate_recommendations branch_gta
  simp only [List.flatMap_cons, List.flatMap_nil, hasRec_append]
  rcases ht with ht | ht
  · subst ht
    rw [hasRec_branch_savings sv "MP Pressure Risk" (by decide),
      hasRec_branch_gta_one 1 a1 s1 p1 "MP Pressure Risk" (by decide) (by decide),
      hasRec_branch_gta_one 2 a2 s2 p2 "MP Pressure Risk" (by decide) (by decide),
      hasRec_branch_gta_one 3 a3 s3 p3 "MP Pressure Risk" (by decide) (by decide),
      hasRec_branch_boiler bb bo "MP Pressure Risk" (by decide) (by decide),
      hasRec_branch_peak _ gi "MP Pressure Risk" (by decide) (by decide),
      hasRec_branch_grid bg gi "MP Pressure Risk" (by decide) (by decide),
      hasRec_branch_sulfur_util su "MP Pressure Risk" (by decide),
      hasRec_branch_active _ "MP Pressure Risk" (by decide),
      hasRec_branch_power_capacity ed "MP Pressure Risk" (by decide),
      hasRec_branch_steam_capacity sd "MP Pressure Risk" (by decide),
      hasRec_branch_offpeak hour "MP Pressure Risk" (by decide),
      hasRec_nil]
    simp only [Bool.false_or, Bool.or_false]
  · subst ht
    rw [hasRec_branch_savings sv "Process Reliability: Stable" (by decide),
      hasRec_branch_gta_one 1 a1 s1 p1 "Process Reliability: Stable" (by decide) (by decide),
      hasRec_branch_gta_one 2 a2 s2 p2 "Process Reliability: Stable" (by decide) (by decide),
      hasRec_branch_gta_one 3 a3 s3 p3 "Process Reliability: Stable" (by decide) (by decide),
      hasRec_branch_boiler bb bo "Process Reliability: Stable" (by decide) (by decide),
      hasRec_branch_peak _ gi "Process Reliability: Stable" (by decide) (by decide),
      hasRec_branch_grid bg gi "Process Reliability: Stable" (by decide) (by decide),
      hasRec_branch_sulfur_util su "Process Reliability: Stable" (by decide),
      hasRec_branch_active _ "Process Reliability: Stable" (by decide),
      hasRec_branch_power_capacity ed "Process Reliability: Stable" (by decide),
      hasRec_branch_steam_capacity sd "Process Reliability: Stable" (by decide),
      hasRec_branch_offpeak hour "Process Reliability: Stable" (by decide),
      hasRec_nil]
    simp only [Bool.false_or, Bool.or_false]

/-- Any full engine run for an electricity demand above the plant-wide
capacity constant emits the high-priority capacity recommendation. -/
theorem hasRecP_gen_capacity (gtas : List GTARecord) (gi bo su bg bb gc sv ed sd : ℚ)
    (hour : Option ℤ) (h : ed > MAX_TOTAL_POWER_PRODUCTION) :
    hasRecP (_generate_recommendations gtas gi bo su bg bb gc sv ed sd hour)
      "Demand Exceeds Plant Capacity" Priority.high = true := by
  unfold hasRecP
  refine List.any_eq_true.mpr
    ⟨⟨"🔴", "Demand Exceeds Plant Capacity", Priority.high⟩, ?_, by decide⟩
  show _ ∈ branch_savings sv ++ branch_gta gtas ++ branch_boiler bb bo ++
    branch_peak (decide (17 ≤ hourOr14 hour ∧ hourOr14 hour < 22)) gi ++
    branch_grid bg gi ++ branch_pressure gtas su bo sd ++ branch_sulfur_util su ++
    branch_active gtas ++ branch_power_capacity ed ++ branch_steam_capacity sd ++
    branch_offpeak hour
  refine List.mem_append_left _ (List.mem_append_left _ (List.mem_append_right _ ?_))
  unfold branch_power_capacity
  rw [if_pos h]
  exact List.mem_singleton.mpr rfl

/-- C6 counterexample: with electricity demand 200 MW (above the 111 MW
plant capacity) and a non-optimal solver status, the returned record
contains **no** recommendations at all — the failure branch returns before
the Recommendation Engine runs, so the claimed "regardless of solver
status" does not hold. -/
theorem spec_c6_cex :
    (optimize 200 400 [] (some 14) 14 50
        ⟨SolverStatus.Infeasible, xZero⟩).recommendations = [] ∧
    (200:ℚ) > MAX_TOTAL_POWER_PRODUCTION := by
  constructor
  · rfl
  · norm_num [MAX_TOTAL_POWER_PRODUCTION]

/-- C6 amended: when `elec_demand` exceeds the plant-wide maximum power
production constant, the result of an **optimal** solve contains the
high-priority "Demand Exceeds Plant Capacity" recommendation; for every
other solver status the returned record carries no recommendations. -/
theorem spec_c6_demand_exceeds_capacity (elec_demand steam_demand : ℚ)
    (constraints : List (String × CVal)) (hour : Option ℤ) (nowHour : ℤ)
    (max_sulfur : ℚ) (out : SolverOutcome)
    (h : elec_demand > MAX_TOTAL_POWER_PRODUCTION) :
    (out.status = SolverStatus.Optimal →
      hasRecP (optimize elec_demand steam_demand constraints hour nowHour max_sulfur
          out).recommendations "Demand Exceeds Plant Capacity" Priority.high = true) ∧
    (out.status ≠ SolverStatus.Optimal →
      (optimize elec_demand steam_demand constraints hour nowHour max_sulfur
          out).recommendations = []) := by
  constructor
  · intro hst
    rcases out with ⟨st, x⟩
    dsimp only at hst
    subst hst
    obtain ⟨bg, bb, gc, sv, hrec⟩ :
        ∃ bg bb gc sv,
          (optimize elec_demand steam_demand constraints hour nowHour max_sulfur
              ⟨SolverStatus.Optimal, x⟩).recommendations =
            _generate_recommendations
              [⟨1, round2 x.A1, round2 x.S1, round2 (predict_gta_power x.A1 x.S1 1)⟩,
               ⟨2, round2 x.A2, round2 x.S2, round2 (predict_gta_power x.A2 x.S2 2)⟩,
               ⟨3, round2 x.A3, round2 x.S3, round2 (predict_gta_power x.A3 x.S3 3)⟩]
              x.grid x.boiler x.sulfur bg bb gc sv elec_demand steam_demand hour :=
      ⟨_, _, get_grid_cost (hour.getD nowHour), _, rfl⟩
    rw [hrec]
    exact hasRecP_gen_capacity _ _ _ _ _ _ _ _ _ _ hour h
  · intro hst
    unfold optimize
    rw [if_neg hst]

/-- C6 witness: demand 200 MW on an optimal outcome. -/
theorem spec_c6_witness :
    (200:ℚ) > MAX_TOTAL_POWER_PRODUCTION ∧
    hasRecP (optimize 200 400 [] (some 14) 14 50
        ⟨SolverStatus.Optimal, xGrid95⟩).recommendations
      "Demand Exceeds Plant Capacity" Priority.high = true := by
  have h : (200:ℚ) > MAX_TOTAL_POWER_PRODUCTION := by
    norm_num [MAX_TOTAL_POWER_PRODUCTION]
  exact ⟨h, (spec_c6_demand_exceeds_capacity 200 400 [] (some 14) 14 50
    ⟨SolverStatus.Optimal, xGrid95⟩ h).1 rfl⟩

/-- C9 counterexample: at the boundary — total steam throughput 3 T/hr
against a steam demand of 4 T/hr gives the estimate 7 + (3/4)·2 = 8.5 bar
exactly — the engine emits **neither** the pressure-risk nor the all-clear
recommendation, because the source tests `< 8.5` and then `elif > 8.5`. -/
theorem spec_c9_cex :
    hasRec (_generate_recommendations [⟨1, 0, 0, 0⟩, ⟨2, 0, 0, 0⟩, ⟨3, 0, 0, 0⟩]
        0 0 3 0 0 (897/1000) 0 10 4 (some 14)) "MP Pressure Risk" = false ∧
    hasRec (_generate_recommendations [⟨1, 0, 0, 0⟩, ⟨2, 0, 0, 0⟩, ⟨3, 0, 0, 0⟩]
        0 0 3 0 0 (897/1000) 0 10 4 (some 14)) "Process Reliability: Stable" = false ∧
    (0:ℚ) < 4 := by
  refine ⟨?_, ?_, by norm_num⟩
  · rw [hasRec_gen_pressure_only _ _ _ _ _ _ _ _ _ _ _ _ _ _ _ _ _ _ _ _ (Or.inl rfl)]
    norm_num [branch_pressure, hasRec_ite, hasRec_singleton, hasRec_nil]
  · rw [hasRec_gen_pressure_only _ _ _ _ _ _ _ _ _ _ _ _ _ _ _ _ _ _ _ _ (Or.inr rfl)]
    norm_num [branch_pressure, hasRec_ite, hasRec_singleton, hasRec_nil]

/-- C9 amended: for every optimally solved dispatch and positive steam
demand, the pressure-risk recommendation is emitted exactly when the linear
estimate `7 + 2·(total steam throughput / steam demand)` is strictly below
the 8.5 bar threshold, and the all-clear exactly when it is strictly above;
when the estimate equals 8.5 exactly, neither is emitted.  (The throughput
the engine sees mixes the rounded soutirages of the result records with the
unrounded boiler and free-steam values, exactly as the source passes
them.) -/
theorem spec_c9_pressure_rule (elec_demand steam_demand : ℚ)
    (constraints : List (String × CVal)) (hour : Option ℤ) (nowHour : ℤ)
    (max_sulfur : ℚ) (x : Assignment) (hsd : 0 < steam_demand) :
    hasRec (optimize elec_demand steam_demand constraints hour nowHour max_sulfur
        ⟨SolverStatus.Optimal, x⟩).recommendations "MP Pressure Risk" =
      decide (7 + (x.sulfur + (round2 x.S1 + round2 x.S2 + round2 x.S3) + x.boiler) /
        steam_demand * 2 < 17/2) ∧
    hasRec (optimize elec_demand steam_demand constraints hour nowHour max_sulfur
        ⟨SolverStatus.Optimal, x⟩).recommendations "Process Reliability: Stable" =
      decide ((17:ℚ)/2 < 7 + (x.sulfur + (round2 x.S1 + round2 x.S2 + round2 x.S3) +
        x.boiler) / steam_demand * 2) := by
  obtain ⟨bg, bb, gc, sv, hrec⟩ :
      ∃ bg bb gc sv,
        (optimize elec_demand steam_demand constraints hour nowHour max_sulfur
            ⟨SolverStatus.Optimal, x⟩).recommendations =
          _generate_recommendations
            [⟨1, round2 x.A1, round2 x.S1, round2 (predict_gta_power x.A1 x.S1 1)⟩,
             ⟨2, round2 x.A2, round2 x.S2, round2 (predict_gta_power x.A2 x.S2 2)⟩,
             ⟨3, round2 x.A3, round2 x.S3, round2 (predict_gta_power x.A3 x.S3 3)⟩]
            x.grid x.boiler x.sulfur bg bb gc sv elec_demand steam_demand hour :=
    ⟨_, _, get_grid_cost (hour.getD nowHour), _, rfl⟩
  have hP : x.sulfur + (round2 x.S1 + (round2 x.S2 + (round2 x.S3 + 0))) + x.boiler
      = x.sulfur + (round2 x.S1 + round2 x.S2 + round2 x.S3) + x.boiler := by ring
  constructor
  · rw [hrec,
      hasRec_gen_pressure_only _ _ _ _ _ _ _ _ _ _ _ _ _ _ _ _ _ _ _ _ (Or.inl rfl)]
    unfold branch_pressure
    simp only [List.map_cons, List.map_nil, List.sum_cons, List.sum_nil]
    rw [if_pos hsd, hP]
    rcases lt_trichotomy
        (7 + (x.sulfur + (round2 x.S1 + round2 x.S2 + round2 x.S3) + x.boiler) /
          steam_demand * 2) ((17:ℚ)/2) with hlt | heq | hgt
    · rw [if_pos hlt, hasRec_singleton, decide_eq_true hlt]
      decide
    · have h1 : ¬ (7 + (x.sulfur + (round2 x.S1 + round2 x.S2 + round2 x.S3) + x.boiler) /
          steam_demand * 2 < 17/2) := by rw [heq]; exact lt_irrefl _
      have h2 : ¬ ((17:ℚ)/2 < 7 + (x.sulfur + (round2 x.S1 + round2 x.S2 + round2 x.S3) +
          x.boiler) / steam_demand * 2) := by rw [heq]; exact lt_irrefl _
      rw [if_neg h1, if_neg h2, hasRec_nil, decide_eq_false h1]
    · have h1 : ¬ (7 + (x.sulfur + (round2 x.S1 + round2 x.S2 + round2 x.S3) + x.boiler) /
          steam_demand * 2 < 17/2) := lt_asymm hgt
      rw [if_neg h1, if_pos hgt, hasRec_singleton, decide_eq_false h1]
      decide
  · rw [hrec,
      hasRec_gen_pressure_only _ _ _ _ _ _ _ _ _ _ _ _ _ _ _ _ _ _ _ _ (Or.inr rfl)]
    unfold branch_pressure
    simp only [List.map_cons, List.map_nil, List.sum_cons, List.sum_nil]
    rw [if_pos hsd, hP]
    rcases lt_trichotomy
        (7 + (x.sulfur + (round2 x.S1 + round2 x.S2 + round2 x.S3) + x.boiler) /
          steam_demand * 2) ((17:ℚ)/2) with hlt | heq | hgt
    · rw [if_pos hlt, hasRec_singleton, decide_eq_false (lt_asymm hlt)]
      decide
    · have h1 : ¬ (7 + (x.sulfur + (round2 x.S1 + round2 x.S2 + round2 x.S3) + x.boiler) /
          steam_demand * 2 < 17/2) := by rw [heq]; exact lt_irrefl _
      have h2 : ¬ ((17:ℚ)/2 < 7 + (x.sulfur + (round2 x.S1 + round2 x.S2 + round2 x.S3) +
          x.boiler) / steam_demand * 2) := by rw [heq]; exact lt_irrefl _
      rw [if_neg h1, if_neg h2, hasRec_nil, decide_eq_false h2]
    · have h1 : ¬ (7 + (x.sulfur + (round2 x.S1 + round2 x.S2 + round2 x.S3) + x.boiler) /
          steam_demand * 2 < 17/2) := lt_asymm hgt
      rw [if_neg h1, if_pos hgt, hasRec_singleton, decide_eq_true hgt]
      decide

/-- C9 witness: the all-zero solver point with steam demand 4 gives the
estimate 7 bar, below the 8.5 bar minimum, so the risk recommendation is
emitted and the all-clear is not. -/
theorem spec_c9_witness :
    (0:ℚ) < 4 ∧
    hasRec (optimize 10 4 [] (some 14) 14 50
        ⟨SolverStatus.Optimal, xZero⟩).recommendations "MP Pressure Risk" =
      decide (7 + (xZero.sulfur + (round2 xZero.S1 + round2 xZero.S2 + round2 xZero.S3) +
        xZero.boiler) / 4 * 2 < 17/2) := by
  exact ⟨by norm_num,
    (spec_c9_pressure_rule 10 4 [] (some 14) 14 50 xZero (by norm_num)).1⟩

end IndustrialCopilot
